import Mathlib

/-!
Shallow embedding of the session and credential lifecycle manager
(class AuthenticationManager) of the mydata_naverpay repository, together
with proofs checking the natural-language specification against it.

Modelling conventions:
* Timestamps are `Nat` milliseconds.  Every comparison the code performs
  on a timestamp difference agrees with truncated `Nat` subtraction
  (a negative JavaScript difference compares the same way as `0` does in
  each of the guards that occur in the code).
* `localStorage` / `sessionStorage` are association lists from keys to
  stored values.  The key strings used by the code form four pairwise
  disjoint families, represented by the four constructors of `StoreKey`.
* The identity-backend adapter is an external collaborator; its responses
  are inputs of the operations (a test double), with one constructor per
  observable outcome of the awaited call, including a thrown rejection.
  The in-repo logout acknowledgement request always resolves successfully,
  which the model reflects by not parameterising it.
* JSON serialisation of the attempt record is modelled by the typed
  `StoreVal` constructors; a value of the wrong shape under a key models
  a string that fails to parse the way the handler expects.
-/

namespace MydataAuth

/-- Keys of the browser key-value stores the manager touches.  The
constructors stand for the literal key strings, which are pairwise
distinct exactly as the constructors are:
`authTokens` = "mydata_auth_tokens", `legacyAttempts` =
"mydata_login_attempts", `attempts e` = "login_attempts_" ++ e,
`locked e` = "account_locked_" ++ e. -/
inductive StoreKey where
  | authTokens
  | legacyAttempts
  | attempts (email : String)
  | locked (email : String)
deriving DecidableEq

/-- A stored value: the JSON attempt record written by handleLoginFailure,
the `Date.now().toString()` lock stamp, or an opaque (encrypted) blob. -/
inductive StoreVal where
  | attemptsRec (count : Nat) (timestamp : Nat)
  | timeStr (t : Nat)
  | blob (s : String)
deriving DecidableEq

/-- One browser storage area (localStorage or sessionStorage). -/
abbrev Store := List (StoreKey × StoreVal)

/-- `storage.getItem(k)`. -/
def getItem (st : Store) (k : StoreKey) : Option StoreVal :=
  (st.find? (fun kv => kv.1 == k)).map (fun kv => kv.2)

/-- `storage.removeItem(k)`. -/
def removeItem (st : Store) (k : StoreKey) : Store :=
  st.filter (fun kv => kv.1 != k)

/-- `storage.setItem(k, v)`. -/
def setItem (st : Store) (k : StoreKey) (v : StoreVal) : Store :=
  (k, v) :: removeItem st k

/-- JavaScript truthiness of a stored string: only the empty string is
falsy among the strings the code stores. -/
def jsTruthy : StoreVal → Bool
  | .blob s => !s.isEmpty
  | _ => true

/-- `a || b` on the results of two getItem calls. -/
def jsOrVal (a b : Option StoreVal) : Option StoreVal :=
  match a with
  | some v => if jsTruthy v then some v else b
  | none => b

/-- `m || d` on an optional message string (empty string is falsy). -/
def jsOrStr (a : Option String) (b : String) : String :=
  match a with
  | some s => if s.isEmpty then b else s
  | none => b

/-- JavaScript truthiness of an optional token string. -/
def jsTruthyStr (o : Option String) : Bool :=
  match o with
  | some s => !s.isEmpty
  | none => false

/-- this.config.maxLoginAttempts -/
def maxLoginAttempts : Nat := 5

/-- this.config.lockoutDuration (5 minutes, ms) -/
def lockoutDuration : Nat := 300000

/-- this.config.sessionTimeout (30 minutes, ms) -/
def sessionTimeoutMs : Nat := 1800000

/-- clearLoginAttempts: removes both per-principal records. -/
def clearLoginAttempts (st : Store) (email : String) : Store :=
  removeItem (removeItem st (.attempts email)) (.locked email)

/-- getLoginAttempts: current failure count; the record is cleared when the
last failure is more than an hour old; a record that does not parse as an
attempts object takes the caught-error path and yields 0. -/
def getLoginAttempts (st : Store) (email : String) (now : Nat) : Nat × Store :=
  match getItem st (.attempts email) with
  | some (.attemptsRec c ts) =>
      if now - ts > 3600000 then (0, clearLoginAttempts st email) else (c, st)
  | some _ => (0, st)
  | none => (0, st)

/-- handleLoginFailure: increments the counter and stamps the lock record
once the counter reaches maxLoginAttempts. -/
def handleLoginFailure (st : Store) (email : String) (now : Nat) : Store :=
  let r := getLoginAttempts st email now
  let n := r.1 + 1
  let st2 := setItem r.2 (.attempts email) (.attemptsRec n now)
  if n ≥ maxLoginAttempts then setItem st2 (.locked email) (.timeStr now) else st2

/-- isAccountLocked: locked while `now - lockTime < lockoutDuration`; an
expired lock record is removed (lazy eviction) and the check reports
unlocked; a record whose parseInt yields NaN compares false on both guards
and takes the same removal branch. -/
def isAccountLocked (st : Store) (email : String) (now : Nat) : Bool × Store :=
  match getItem st (.locked email) with
  | some (.timeStr t) =>
      if now - t < lockoutDuration then (true, st)
      else (false, removeItem st (.locked email))
  | some _ => (false, removeItem st (.locked email))
  | none => (false, st)

/-- The character class `\s` of the email regex, at the code points that
can occur in this development. -/
def isJsSpace (c : Char) : Bool :=
  c == ' ' || c == '\t' || c == '\n' || c == '\r' ||
  c == Char.ofNat 11 || c == Char.ofNat 12

/-- Split a character list at every occurrence of `sep`. -/
def splitOnChar (sep : Char) : List Char → List (List Char)
  | [] => [[]]
  | c :: rest =>
      let r := splitOnChar sep rest
      if c = sep then [] :: r
      else
        match r with
        | h :: t => (c :: h) :: t
        | [] => [[c]]

/-- The regex `^[^\s@]+@[^\s@]+\.[^\s@]+$`: exactly one `@`, a nonempty
space-free local part, and a space-free domain containing a dot with at
least one character on each side (the parts on either side of that dot may
themselves contain further dots). -/
def isValidEmail (email : String) : Bool :=
  match splitOnChar '@' email.toList with
  | [lpart, dpart] =>
      !lpart.isEmpty && lpart.all (fun c => !isJsSpace c) &&
      dpart.all (fun c => !isJsSpace c) &&
      ((dpart.drop 1).dropLast.contains '.')
  | _ => false

def msgEmptyInput : String := "이메일과 비밀번호를 입력해주세요."
def msgBadEmail : String := "올바른 이메일 형식이 아닙니다."
def msgShortPassword : String := "비밀번호는 8자 이상이어야 합니다."
def msgLocked : String := "계정이 일시적으로 잠겨있습니다. 잠시 후 다시 시도해주세요."
def msgLoginFailed : String := "로그인에 실패했습니다."
def msgLoginSuccess : String := "로그인에 성공했습니다."

/-- validateLoginInput: `some m` models the thrown validation error. -/
def validateLoginInput (email pw : String) : Option String :=
  if email.isEmpty || pw.isEmpty then some msgEmptyInput
  else if !isValidEmail email then some msgBadEmail
  else if pw.length < 8 then some msgShortPassword
  else none

/-- The in-memory fields of the manager together with the two storage
areas it writes.  `tokenRefreshTimer` records whether the refresh timer is
armed. -/
structure AuthState where
  currentUser : Option String
  accessToken : Option String
  refreshToken : Option String
  tokenRefreshTimer : Bool
  localStore : Store
  sessionStore : Store
deriving DecidableEq

/-- The JSON object stored by storeTokens. -/
structure StoredBundle where
  accessToken : Option String
  refreshToken : Option String
  timestamp : Nat
deriving DecidableEq

/-- Events dispatched on window (auth:loginSuccess / auth:logout). -/
inductive AuthEvent where
  | loginSuccess (user : String)
  | loggedOut
deriving DecidableEq

/-- Backend adapter requests issued by the operations modelled here. -/
inductive BackendCall where
  | loginReq
  | refreshReq
  | logoutReq
deriving DecidableEq

/-- The object login returns to its caller. -/
structure LoginResult where
  success : Bool
  user : Option String
  message : String
deriving DecidableEq

/-- Outcome of the awaited sendLoginRequest on the test double: a success
response carrying both tokens and the user, a `success: false` response
with an optional message, or a rejection. -/
inductive LoginOutcome where
  | ok (accessToken refreshToken user : String)
  | fail (message : Option String)
  | err (message : String)
deriving DecidableEq

/-- Outcome of the awaited sendTokenRefreshRequest: the success response
carries a fresh access token and possibly a rotated refresh token (the
in-repo double omits it). -/
inductive RefreshOutcome where
  | ok (accessToken : String) (refreshToken : Option String)
  | fail
  | err (message : String)
deriving DecidableEq

/-- Result of logout and of one session-timeout tick. -/
structure OpResult where
  state : AuthState
  events : List AuthEvent
  calls : List BackendCall
deriving DecidableEq

/-- Result of login. -/
structure LoginOpResult where
  state : AuthState
  result : LoginResult
  events : List AuthEvent
  calls : List BackendCall
deriving DecidableEq

/-- Result of refreshAccessToken (`ok` is its boolean return value). -/
structure RefreshResult where
  state : AuthState
  ok : Bool
  events : List AuthEvent
  calls : List BackendCall
deriving DecidableEq

/-- storeTokens(persistent): serialise the current tokens with the current
time, encrypt, and overwrite the single entry of the chosen storage area.
`enc` is encryptData under the process key, `ser` is JSON.stringify. -/
def storeTokens (enc : String → String) (ser : StoredBundle → String)
    (persistent : Bool) (now : Nat) (s : AuthState) : AuthState :=
  let blob := enc (ser ⟨s.accessToken, s.refreshToken, now⟩)
  if persistent then
    { s with localStore := setItem s.localStore .authTokens (.blob blob) }
  else
    { s with sessionStore := setItem s.sessionStore .authTokens (.blob blob) }

/-- The `localStorage.getItem(k) || sessionStorage.getItem(k)` read of
loadStoredTokens. -/
def storedAuthEntry (s : AuthState) : Option StoreVal :=
  jsOrVal (getItem s.localStore .authTokens) (getItem s.sessionStore .authTokens)

/-- loadStoredTokens: decrypt the stored blob, parse it, and install the
tokens only when the stored timestamp is younger than 24 hours; every
failure (including a thrown decryption or parse error) is caught and
reported as `false` with the state untouched.  `dec` is decryptData under
the process key, `parse` is JSON.parse specialised to the bundle shape. -/
def loadStoredTokens (dec : String → Option String)
    (parse : String → Option StoredBundle) (now : Nat) (s : AuthState) :
    Bool × AuthState :=
  match storedAuthEntry s with
  | some (.blob b) =>
      match dec b with
      | some plain =>
          match parse plain with
          | some tk =>
              if now - tk.timestamp < 86400000 then
                (true, { s with accessToken := tk.accessToken,
                                refreshToken := tk.refreshToken })
              else (false, s)
          | none => (false, s)
      | none => (false, s)
  | some _ => (false, s)
  | none => (false, s)

/-- clearAuthData: null the in-memory fields, remove the credential blob
from both storage areas, and remove the fixed key
"mydata_login_attempts" (which no code path ever writes). -/
def clearAuthData (s : AuthState) : AuthState :=
  { s with
      currentUser := none
      accessToken := none
      refreshToken := none
      localStore := removeItem (removeItem s.localStore .authTokens) .legacyAttempts
      sessionStore := removeItem s.sessionStore .authTokens }

/-- clearTimers. -/
def clearTimers (s : AuthState) : AuthState :=
  { s with tokenRefreshTimer := false }

/-- logout: best-effort backend notification when an access token is held
(the adapter contract and the in-repo sendLogoutRequest always resolve
with an acknowledgement), then clearAuthData, clearTimers, and the
auth:logout event. -/
def logout (s : AuthState) : OpResult :=
  let calls := if jsTruthyStr s.accessToken then [BackendCall.logoutReq] else []
  ⟨clearTimers (clearAuthData s), [AuthEvent.loggedOut], calls⟩

/-- login: the lockout check runs before any backend traffic, then input
validation, then the backend request; a success response installs the
bundle, persists it according to rememberMe, emits the success event and
resets the attempt records; every thrown error is caught and returned as
a `success: false` result object. -/
def login (enc : String → String) (ser : StoredBundle → String)
    (email pw : String) (rememberMe : Bool) (o : LoginOutcome) (now : Nat)
    (s : AuthState) : LoginOpResult :=
  let lk := isAccountLocked s.localStore email now
  let s1 := { s with localStore := lk.2 }
  if lk.1 then
    ⟨s1, ⟨false, none, msgLocked⟩, [], []⟩
  else
    match validateLoginInput email pw with
    | some m => ⟨s1, ⟨false, none, m⟩, [], []⟩
    | none =>
        match o with
        | .ok atk rtk user =>
            let s2 := { s1 with accessToken := some atk,
                                refreshToken := some rtk,
                                currentUser := some user }
            let s3 := if rememberMe then storeTokens enc ser true now s2
                      else storeTokens enc ser false now s2
            let s4 := { s3 with localStore := clearLoginAttempts s3.localStore email }
            ⟨s4, ⟨true, some user, msgLoginSuccess⟩, [.loginSuccess user], [.loginReq]⟩
        | .fail m =>
            let s2 := { s1 with localStore := handleLoginFailure s1.localStore email now }
            ⟨s2, ⟨false, none, jsOrStr m msgLoginFailed⟩, [], [.loginReq]⟩
        | .err m =>
            ⟨s1, ⟨false, none, m⟩, [], [.loginReq]⟩

/-- The continuation of refreshAccessToken from the point where the awaited
sendTokenRefreshRequest resolves: a success response overwrites the access
token, overwrites the refresh token only when the response carries a truthy
one, re-persists via storeTokens() (session scope by default) and re-arms
the refresh timer; a failure response or a rejection runs logout and
returns false. -/
def refreshResume (enc : String → String) (ser : StoredBundle → String)
    (now : Nat) (o : RefreshOutcome) (s : AuthState) : RefreshResult :=
  match o with
  | .ok atk rtk =>
      let s1 := { s with accessToken := some atk }
      let s2 := if jsTruthyStr rtk then { s1 with refreshToken := rtk } else s1
      let s3 := storeTokens enc ser false now s2
      let s4 := { s3 with tokenRefreshTimer := true }
      ⟨s4, true, [], []⟩
  | .fail =>
      let r := logout s
      ⟨r.state, false, r.events, r.calls⟩
  | .err _ =>
      let r := logout s
      ⟨r.state, false, r.events, r.calls⟩

/-- refreshAccessToken: a missing (falsy) refresh token throws before any
backend traffic and the catch block runs logout; otherwise the request is
issued once and the continuation `refreshResume` handles the response. -/
def refreshAccessToken (enc : String → String) (ser : StoredBundle → String)
    (o : RefreshOutcome) (now : Nat) (s : AuthState) : RefreshResult :=
  if jsTruthyStr s.refreshToken then
    let r := refreshResume enc ser now o s
    ⟨r.state, r.ok, r.events, .refreshReq :: r.calls⟩
  else
    let r := logout s
    ⟨r.state, false, r.events, r.calls⟩

/-- One tick of the startSessionTimeout interval: when a user is present
and inactivity exceeds the 30-minute threshold the manager runs logout. -/
def sessionTimeoutTick (now lastActivity : Nat) (s : AuthState) : OpResult :=
  if s.currentUser.isSome ∧ now - lastActivity > sessionTimeoutMs then logout s
  else ⟨s, [], []⟩

/-- One user-driven operation of the session state machine. -/
inductive AuthOp where
  | loginOp (email pw : String) (rememberMe : Bool) (o : LoginOutcome) (now : Nat)
  | refreshOp (o : RefreshOutcome) (now : Nat)
  | logoutOp
deriving DecidableEq

/-- The state reached after one operation. -/
def stepOp (enc : String → String) (ser : StoredBundle → String)
    (s : AuthState) : AuthOp → AuthState
  | .loginOp e p rm o now => (login enc ser e p rm o now s).state
  | .refreshOp o now => (refreshAccessToken enc ser o now s).state
  | .logoutOp => (logout s).state

/-- The state reached after a sequence of operations. -/
def runOps (enc : String → String) (ser : StoredBundle → String)
    (ops : List AuthOp) (s : AuthState) : AuthState :=
  ops.foldl (stepOp enc ser) s

/-- The pairing invariant of the spec: the two tokens are both set or both
null. -/
def tokensConsistent (s : AuthState) : Prop :=
  s.accessToken = none ↔ s.refreshToken = none

/-- The base64 alphabet used by btoa. -/
def b64Alphabet : List Char :=
  "ABCDEFGHIJKLMNOPQRSTUVWXYZabcdefghijklmnopqrstuvwxyz0123456789+/".toList

/-- Digit of the alphabet at sextet value `n`. -/
def b64Char (n : Nat) : Char := b64Alphabet.getD n 'A'

/-- Sextet value of a base64 digit. -/
def b64Index (c : Char) : Option Nat := b64Alphabet.findIdx? (fun d => d == c)

/-- `btoa(String.fromCharCode(...bytes))`: standard base64 over a byte
list, with `=` padding. -/
def btoa : List Nat → List Char
  | [] => []
  | [a] => [b64Char (a / 4), b64Char (a % 4 * 16), '=', '=']
  | [a, b] => [b64Char (a / 4), b64Char (a % 4 * 16 + b / 16),
               b64Char (b % 16 * 4), '=']
  | a :: b :: c :: rest =>
      b64Char (a / 4) :: b64Char (a % 4 * 16 + b / 16) ::
      b64Char (b % 16 * 4 + c / 64) :: b64Char (c % 64) :: btoa rest

/-- `atob` followed by per-character charCodeAt: base64 decoding back to
the byte list, `none` modelling the thrown InvalidCharacterError; padding
is accepted only at the end of the input. -/
def atob : List Char → Option (List Nat)
  | [] => some []
  | c1 :: c2 :: c3 :: c4 :: rest =>
      match b64Index c1, b64Index c2 with
      | some i1, some i2 =>
          if c3 = '=' ∧ c4 = '=' ∧ rest = [] then
            some [i1 * 4 + i2 / 16]
          else if c4 = '=' ∧ rest = [] then
            match b64Index c3 with
            | some i3 => some [i1 * 4 + i2 / 16, i2 % 16 * 16 + i3 / 4]
            | none => none
          else
            match b64Index c3, b64Index c4, atob rest with
            | some i3, some i4, some r =>
                some ((i1 * 4 + i2 / 16) :: (i2 % 16 * 16 + i3 / 4) ::
                      (i3 % 4 * 64 + i4) :: r)
            | _, _, _ => none
      | _, _ => none
  | _ => none

/-- What `this.encryptionKey` can hold: a resolved CryptoKey of the
abstract key type `K` — what a correct implementation would obtain by
awaiting `crypto.subtle.generateKey` — or the still-pending Promise that
`generateEncryptionKey` actually returns, which is not a CryptoKey. -/
inductive CryptoKeyRef (K : Type) where
  | cryptoKey (k : K)
  | pendingPromise
deriving DecidableEq

/-- generateEncryptionKey: returns the Promise of
`crypto.subtle.generateKey` without awaiting it, and the constructor
stores that return value directly in `this.encryptionKey`; so the value
the field holds is the pending Promise, never a CryptoKey. -/
def generateEncryptionKey (K : Type) : CryptoKeyRef K := .pendingPromise

/-- `crypto.subtle.encrypt` on AES-GCM: with a genuine CryptoKey it is the
abstract cipher primitive; with any other key argument — in particular
the pending Promise — the Web IDL conversion of the key parameter fails
and the call rejects with a TypeError, modelled as `none`. -/
def subtleEncrypt {K : Type} (cipher : K → List Nat → List Nat → List Nat) :
    CryptoKeyRef K → List Nat → List Nat → Option (List Nat)
  | .cryptoKey k, iv, data => some (cipher k iv data)
  | .pendingPromise, _, _ => none

/-- `crypto.subtle.decrypt` on AES-GCM: with a genuine CryptoKey it is
the abstract decryption primitive (which may itself fail on a bad tag);
with any other key argument the call rejects with a TypeError. -/
def subtleDecrypt {K : Type}
    (decipher : K → List Nat → List Nat → Option (List Nat)) :
    CryptoKeyRef K → List Nat → List Nat → Option (List Nat)
  | .cryptoKey k, iv, ct => decipher k iv ct
  | .pendingPromise, _, _ => none

/-- encryptData: TextEncoder is modelled as the identity between the
plaintext and its byte sequence; the awaited `crypto.subtle.encrypt` call
is `subtleEncrypt` applied to whatever `this.encryptionKey` holds; on
success the 12-byte IV is prepended to the ciphertext and the combined
buffer base64-encoded; `none` models the rethrown rejection. -/
def encryptData {K : Type} (cipher : K → List Nat → List Nat → List Nat)
    (key : CryptoKeyRef K) (iv : List Nat) (data : List Nat) :
    Option (List Char) :=
  match subtleEncrypt cipher key iv data with
  | some ct => some (btoa (iv ++ ct))
  | none => none

/-- decryptData: base64-decode, slice off the 12-byte IV, and run the
awaited `crypto.subtle.decrypt` call on whatever `this.encryptionKey`
holds; `none` at any stage models the thrown error. -/
def decryptData {K : Type}
    (decipher : K → List Nat → List Nat → Option (List Nat))
    (key : CryptoKeyRef K) (s : List Char) : Option (List Nat) :=
  match atob s with
  | some combined => subtleDecrypt decipher key (combined.take 12) (combined.drop 12)
  | none => none

/-- Identity stand-in for encryptData when only the session logic is
exercised. -/
def encId : String → String := fun s => s

/-- Trivial stand-in for JSON.stringify of the bundle when only the
session logic is exercised. -/
def serNull : StoredBundle → String := fun _ => "bundle"

/-- A store holding an expired lock stamp and a five-failure record for
the same principal. -/
def c6Store : Store :=
  [(.locked "user@example.com", .timeStr 0),
   (.attempts "user@example.com", .attemptsRec 5 0)]

/-- A live authenticated session. -/
def liveState : AuthState :=
  { currentUser := some "user-1", accessToken := some "a1",
    refreshToken := some "r1", tokenRefreshTimer := true,
    localStore := [], sessionStore := [] }

/-- A live authenticated session whose principal also has attempt and
lock records on file. -/
def c8State : AuthState :=
  { currentUser := some "user-1", accessToken := some "a1",
    refreshToken := some "r1", tokenRefreshTimer := true,
    localStore := [(.attempts "victim@example.com", .attemptsRec 3 0),
                   (.locked "victim@example.com", .timeStr 0)],
    sessionStore := [] }

/-- A state whose persistent storage area holds a credential blob. -/
def c4State : AuthState :=
  { currentUser := none, accessToken := none, refreshToken := none,
    tokenRefreshTimer := false,
    localStore := [(.authTokens, .blob "ciphertext")], sessionStore := [] }

/-- An anonymous state with clean attempt records. -/
def c1State : AuthState :=
  { currentUser := none, accessToken := none, refreshToken := none,
    tokenRefreshTimer := false, localStore := [], sessionStore := [] }

/-- The two records handleLoginFailure leaves for a principal at the
failure that reaches the attempt limit: the counter at `c` and the lock
stamp at `t`. -/
def lockedStore (st : Store) (email : String) (c t : Nat) : Store :=
  setItem (setItem st (.attempts email) (.attemptsRec c t)) (.locked email)
    (.timeStr t)

theorem getItem_cons (p : StoreKey × StoreVal) (rest : Store) (k : StoreKey) :
    getItem (p :: rest) k = if p.1 = k then some p.2 else getItem rest k := by
  by_cases h : p.1 = k <;> simp [getItem, List.find?_cons, h]

theorem removeItem_cons (p : StoreKey × StoreVal) (rest : Store) (k : StoreKey) :
    removeItem (p :: rest) k =
      if p.1 = k then removeItem rest k else p :: removeItem rest k := by
  by_cases h : p.1 = k <;> simp [removeItem, List.filter_cons, h]

theorem getItem_removeItem_self (st : Store) (k : StoreKey) :
    getItem (removeItem st k) k = none := by
  induction st with
  | nil => rfl
  | cons p rest ih =>
      rw [removeItem_cons]
      by_cases h : p.1 = k
      · simpa [h] using ih
      · rw [if_neg h, getItem_cons, if_neg h]
        exact ih

theorem getItem_removeItem_ne (st : Store) (k k' : StoreKey) (h : k' ≠ k) :
    getItem (removeItem st k) k' = getItem st k' := by
  induction st with
  | nil => rfl
  | cons p rest ih =>
      rw [removeItem_cons, getItem_cons]
      by_cases h1 : p.1 = k
      · have h2 : ¬ p.1 = k' := fun hc => h (by rw [← hc, h1])
        rw [if_pos h1, if_neg h2]
        exact ih
      · rw [if_neg h1, getItem_cons]
        by_cases h2 : p.1 = k'
        · rw [if_pos h2, if_pos h2]
        · rw [if_neg h2, if_neg h2]
          exact ih

theorem getItem_setItem_self (st : Store) (k : StoreKey) (v : StoreVal) :
    getItem (setItem st k v) k = some v := by
  rw [setItem, getItem_cons, if_pos rfl]

theorem getItem_setItem_ne (st : Store) (k k' : StoreKey) (v : StoreVal)
    (h : k' ≠ k) :
    getItem (setItem st k v) k' = getItem st k' := by
  rw [setItem, getItem_cons, if_neg (fun hc => h hc.symm)]
  exact getItem_removeItem_ne st k k' h

theorem logout_state_spec (s : AuthState) :
    (logout s).state.accessToken = none ∧
    (logout s).state.refreshToken = none ∧
    (logout s).state.currentUser = none ∧
    getItem (logout s).state.localStore .authTokens = none ∧
    getItem (logout s).state.sessionStore .authTokens = none ∧
    (logout s).events = [AuthEvent.loggedOut] ∧
    (logout s).calls.count .refreshReq = 0 := by
  refine ⟨rfl, rfl, rfl, ?_, ?_, rfl, ?_⟩
  · show getItem (removeItem (removeItem s.localStore .authTokens) .legacyAttempts)
      .authTokens = none
    rw [getItem_removeItem_ne _ _ _ (by decide)]
    exact getItem_removeItem_self _ _
  · exact getItem_removeItem_self _ _
  · show (if jsTruthyStr s.accessToken then [BackendCall.logoutReq] else []).count
      .refreshReq = 0
    cases jsTruthyStr s.accessToken <;> decide

theorem logout_attempt_records (s : AuthState) (p : String) :
    getItem (logout s).state.localStore (.attempts p) =
      getItem s.localStore (.attempts p) ∧
    getItem (logout s).state.localStore (.locked p) =
      getItem s.localStore (.locked p) ∧
    getItem (logout s).state.localStore .legacyAttempts = none := by
  refine ⟨?_, ?_, ?_⟩
  · show getItem (removeItem (removeItem s.localStore .authTokens) .legacyAttempts)
      (.attempts p) = getItem s.localStore (.attempts p)
    rw [getItem_removeItem_ne _ _ _ (fun hc => StoreKey.noConfusion hc),
        getItem_removeItem_ne _ _ _ (fun hc => StoreKey.noConfusion hc)]
  · show getItem (removeItem (removeItem s.localStore .authTokens) .legacyAttempts)
      (.locked p) = getItem s.localStore (.locked p)
    rw [getItem_removeItem_ne _ _ _ (fun hc => StoreKey.noConfusion hc),
        getItem_removeItem_ne _ _ _ (fun hc => StoreKey.noConfusion hc)]
  · show getItem (removeItem (removeItem s.localStore .authTokens) .legacyAttempts)
      .legacyAttempts = none
    exact getItem_removeItem_self _ _

/-- Claim C2: when a token refresh fails — the backend answers with a
failure response, the awaited call rejects, or the refresh token is
missing — refreshAccessToken tears the session down exactly like logout:
it returns false, the resulting state is the logout state (in-memory
user and both tokens cleared, the credential entry removed from both the
persistent and the session-scoped storage area), the auth:logout event is
emitted, and the refresh request is issued at most once (no retry). -/
theorem c2_refresh_failure_tears_down
    (enc : String → String) (ser : StoredBundle → String)
    (o : RefreshOutcome) (now : Nat) (s : AuthState)
    (h : s.refreshToken = none ∨ o = .fail ∨ ∃ m, o = .err m) :
    (refreshAccessToken enc ser o now s).ok = false ∧
    (refreshAccessToken enc ser o now s).state = (logout s).state ∧
    (refreshAccessToken enc ser o now s).state.accessToken = none ∧
    (refreshAccessToken enc ser o now s).state.refreshToken = none ∧
    (refreshAccessToken enc ser o now s).state.currentUser = none ∧
    getItem (refreshAccessToken enc ser o now s).state.localStore .authTokens = none ∧
    getItem (refreshAccessToken enc ser o now s).state.sessionStore .authTokens = none ∧
    (refreshAccessToken enc ser o now s).events = [.loggedOut] ∧
    (refreshAccessToken enc ser o now s).calls.count .refreshReq ≤ 1 := by
  obtain ⟨h1, h2, h3, h4, h5, h6, h7⟩ := logout_state_spec s
  by_cases ht : jsTruthyStr s.refreshToken
  · have he : refreshAccessToken enc ser o now s =
        ⟨(logout s).state, false, (logout s).events, .refreshReq :: (logout s).calls⟩ := by
      rcases h with h | h | ⟨m, h⟩
      · rw [h] at ht
        exact absurd ht (by decide)
      · subst h
        simp [refreshAccessToken, refreshResume, ht]
      · subst h
        simp [refreshAccessToken, refreshResume, ht]
    rw [he]
    refine ⟨rfl, rfl, h1, h2, h3, h4, h5, h6, ?_⟩
    show ((BackendCall.refreshReq :: (logout s).calls).count .refreshReq) ≤ 1
    rw [List.count_cons]
    simp [h7]
  · have he : refreshAccessToken enc ser o now s =
        ⟨(logout s).state, false, (logout s).events, (logout s).calls⟩ := by
      simp [refreshAccessToken, ht]
    rw [he]
    exact ⟨rfl, rfl, h1, h2, h3, h4, h5, h6, by rw [h7]; decide⟩

theorem c2_refresh_failure_tears_down_witness :
    (refreshAccessToken encId serNull .fail 0 liveState).ok = false ∧
    (refreshAccessToken encId serNull .fail 0 liveState).state = (logout liveState).state ∧
    (refreshAccessToken encId serNull .fail 0 liveState).state.accessToken = none ∧
    (refreshAccessToken encId serNull .fail 0 liveState).state.refreshToken = none ∧
    (refreshAccessToken encId serNull .fail 0 liveState).state.currentUser = none ∧
    getItem (refreshAccessToken encId serNull .fail 0 liveState).state.localStore .authTokens = none ∧
    getItem (refreshAccessToken encId serNull .fail 0 liveState).state.sessionStore .authTokens = none ∧
    (refreshAccessToken encId serNull .fail 0 liveState).events = [.loggedOut] ∧
    (refreshAccessToken encId serNull .fail 0 liveState).calls.count .refreshReq ≤ 1 :=
  c2_refresh_failure_tears_down encId serNull .fail 0 liveState (Or.inr (Or.inl rfl))

/-- Claim C8 counterexample: explicit logout does not remove the stored
attempt/lockout records of a principal — after logging out of a session
whose principal has a three-failure record and a lock stamp on file, both
per-principal entries are still present (clearAuthData removes only the
credential blobs and the never-written "mydata_login_attempts" key). -/
theorem c8_counterexample :
    getItem (logout c8State).state.localStore (.attempts "victim@example.com") =
      some (.attemptsRec 3 0) ∧
    getItem (logout c8State).state.localStore (.locked "victim@example.com") =
      some (.timeStr 0) ∧
    ¬ (getItem (logout c8State).state.localStore (.attempts "victim@example.com") =
        none) := by decide

/-- Claim C8 (amended): logout leaves every per-principal attempt and
lockout record untouched, removing only the credential blobs of both
storage areas and the fixed "mydata_login_attempts" key, which no code
path ever writes; and the inactivity-timeout teardown is the very same
logout call, so timeout and logout treat attempt records identically. -/
theorem c8_logout_and_timeout_share_teardown (s : AuthState) (p : String)
    (now la : Nat)
    (hu : s.currentUser.isSome = true)
    (hto : sessionTimeoutMs < now - la) :
    getItem (logout s).state.localStore (.attempts p) =
      getItem s.localStore (.attempts p) ∧
    getItem (logout s).state.localStore (.locked p) =
      getItem s.localStore (.locked p) ∧
    getItem (logout s).state.localStore .legacyAttempts = none ∧
    getItem (logout s).state.localStore .authTokens = none ∧
    getItem (logout s).state.sessionStore .authTokens = none ∧
    sessionTimeoutTick now la s = logout s := by
  obtain ⟨h1, h2, h3⟩ := logout_attempt_records s p
  obtain ⟨_, _, _, h4, h5, _, _⟩ := logout_state_spec s
  refine ⟨h1, h2, h3, h4, h5, ?_⟩
  rw [sessionTimeoutTick, if_pos ⟨hu, hto⟩]

theorem c8_logout_and_timeout_share_teardown_witness :
    getItem (logout c8State).state.localStore (.attempts "victim@example.com") =
      getItem c8State.localStore (.attempts "victim@example.com") ∧
    getItem (logout c8State).state.localStore (.locked "victim@example.com") =
      getItem c8State.localStore (.locked "victim@example.com") ∧
    getItem (logout c8State).state.localStore .legacyAttempts = none ∧
    getItem (logout c8State).state.localStore .authTokens = none ∧
    getItem (logout c8State).state.sessionStore .authTokens = none ∧
    sessionTimeoutTick 1800001 0 c8State = logout c8State :=
  c8_logout_and_timeout_share_teardown c8State "victim@example.com" 1800001 0
    (by decide) (by decide)

/-- Claim C6 counterexample: with a lock stamped at time 0 and a
five-failure record on file, checking isAccountLocked at time 300000
(the lockout just expired) reports unlocked and removes the lock record,
but the failure counter is still present — the claim that the check
resets both the lock state and the failure counter is false. -/
theorem c6_counterexample :
    (isAccountLocked c6Store "user@example.com" 300000).1 = false ∧
    getItem (isAccountLocked c6Store "user@example.com" 300000).2
      (.attempts "user@example.com") = some (.attemptsRec 5 0) ∧
    ¬ (getItem (isAccountLocked c6Store "user@example.com" 300000).2
        (.attempts "user@example.com") = none) := by decide

/-- Claim C6 (amended): once the lockout was set at least lockoutDuration
(5 minutes) in the past, isAccountLocked returns false and removes the
lock record only; the per-principal failure counter is left exactly as it
was (it is cleared separately, by getLoginAttempts after the one-hour
window or by a successful login). -/
theorem c6_expired_lock_clears_lock_only (st : Store) (email : String)
    (now t : Nat)
    (hl : getItem st (.locked email) = some (.timeStr t))
    (h : lockoutDuration ≤ now - t) :
    isAccountLocked st email now = (false, removeItem st (.locked email)) ∧
    getItem (isAccountLocked st email now).2 (.attempts email) =
      getItem st (.attempts email) := by
  have he : isAccountLocked st email now = (false, removeItem st (.locked email)) := by
    simp only [isAccountLocked, hl]
    rw [if_neg (Nat.not_lt.mpr h)]
  refine ⟨he, ?_⟩
  rw [he]
  exact getItem_removeItem_ne _ _ _ (fun hc => StoreKey.noConfusion hc)

theorem c6_expired_lock_clears_lock_only_witness :
    isAccountLocked c6Store "user@example.com" 300000 =
      (false, removeItem c6Store (.locked "user@example.com")) ∧
    getItem (isAccountLocked c6Store "user@example.com" 300000).2
      (.attempts "user@example.com") =
      getItem c6Store (.attempts "user@example.com") :=
  c6_expired_lock_clears_lock_only c6Store "user@example.com" 300000 0
    (by decide) (by decide)

/-- Claim C7 counterexample: with a live authenticated session holding
token "a1", a login call whose backend double answers success with a new
bundle returns success and installs the new bundle over the live one —
the code neither rejects with an already-authenticated error nor requires
a prior logout. -/
theorem c7_counterexample :
    (login encId serNull "u@example.com" "password1" true
      (.ok "a2" "r2" "user-2") 0 liveState).result.success = true ∧
    (login encId serNull "u@example.com" "password1" true
      (.ok "a2" "r2" "user-2") 0 liveState).state.accessToken = some "a2" ∧
    liveState.accessToken = some "a1" ∧
    ¬ ((login encId serNull "u@example.com" "password1" true
          (.ok "a2" "r2" "user-2") 0 liveState).result.success = false ∨
       ((login encId serNull "u@example.com" "password1" true
          (.ok "a2" "r2" "user-2") 0 liveState).state.accessToken =
            liveState.accessToken ∧
        (login encId serNull "u@example.com" "password1" true
          (.ok "a2" "r2" "user-2") 0 liveState).state.refreshToken =
            liveState.refreshToken)) := by decide

/-- Claim C7 (amended): login performs no already-authenticated guard:
whenever the principal is not locked out and the input validates, a
successful backend response silently replaces the entire in-memory
session — both tokens and the user — with the new bundle and reports
success, regardless of whether a session was already live. -/
theorem c7_login_replaces_session (enc : String → String)
    (ser : StoredBundle → String) (email pw : String) (rm : Bool)
    (atk rtk user : String) (now : Nat) (s : AuthState)
    (hl : (isAccountLocked s.localStore email now).1 = false)
    (hv : validateLoginInput email pw = none) :
    (login enc ser email pw rm (.ok atk rtk user) now s).result.success = true ∧
    (login enc ser email pw rm (.ok atk rtk user) now s).state.accessToken =
      some atk ∧
    (login enc ser email pw rm (.ok atk rtk user) now s).state.refreshToken =
      some rtk ∧
    (login enc ser email pw rm (.ok atk rtk user) now s).state.currentUser =
      some user := by
  cases rm <;> simp [login, hl, hv, storeTokens, clearLoginAttempts]

theorem c7_login_replaces_session_witness :
    (login encId serNull "u@example.com" "password1" true
      (.ok "a2" "r2" "user-2") 0 liveState).result.success = true ∧
    (login encId serNull "u@example.com" "password1" true
      (.ok "a2" "r2" "user-2") 0 liveState).state.accessToken = some "a2" ∧
    (login encId serNull "u@example.com" "password1" true
      (.ok "a2" "r2" "user-2") 0 liveState).state.refreshToken = some "r2" ∧
    (login encId serNull "u@example.com" "password1" true
      (.ok "a2" "r2" "user-2") 0 liveState).state.currentUser = some "user-2" :=
  c7_login_replaces_session encId serNull "u@example.com" "password1" true
    "a2" "r2" "user-2" 0 liveState (by decide) (by decide)

/-- Claim C9 counterexample: a refresh is in flight (the guard passed on
the live session), logout then completes, and the stale refresh response
resolves successfully afterwards; the resumed continuation re-installs
the returned access token into the anonymous session, so the session does
not remain anonymous — the code has no generation counter and the last
arrival wins. -/
theorem c9_counterexample :
    jsTruthyStr liveState.refreshToken = true ∧
    (refreshResume encId serNull 3300000 (.ok "a2" none)
      (logout liveState).state).state.accessToken = some "a2" ∧
    (refreshResume encId serNull 3300000 (.ok "a2" none)
      (logout liveState).state).state.refreshToken = none ∧
    ¬ ((refreshResume encId serNull 3300000 (.ok "a2" none)
        (logout liveState).state).state.accessToken = none) := by decide

/-- Claim C9 (amended): the code carries no generation counter, so a
successful refresh response that resolves after logout re-installs its
access token into the anonymous session (while the refresh token stays
null when the response omits one, as the in-repo double does): arrival
order, not a generation counter, decides the final state. -/
theorem c9_stale_refresh_reinstalls (enc : String → String)
    (ser : StoredBundle → String) (now : Nat) (atk : String) (s : AuthState)
    (hr : s.refreshToken = none) (hu : s.currentUser = none) :
    (refreshResume enc ser now (.ok atk none) s).ok = true ∧
    (refreshResume enc ser now (.ok atk none) s).state.accessToken = some atk ∧
    (refreshResume enc ser now (.ok atk none) s).state.refreshToken = none ∧
    (refreshResume enc ser now (.ok atk none) s).state.currentUser = none := by
  simp [refreshResume, storeTokens, jsTruthyStr, hr, hu]

theorem c9_stale_refresh_reinstalls_witness :
    (refreshResume encId serNull 3300000 (.ok "a2" none)
      (logout liveState).state).ok = true ∧
    (refreshResume encId serNull 3300000 (.ok "a2" none)
      (logout liveState).state).state.accessToken = some "a2" ∧
    (refreshResume encId serNull 3300000 (.ok "a2" none)
      (logout liveState).state).state.refreshToken = none ∧
    (refreshResume encId serNull 3300000 (.ok "a2" none)
      (logout liveState).state).state.currentUser = none :=
  c9_stale_refresh_reinstalls encId serNull 3300000 "a2"
    (logout liveState).state (by decide) (by decide)

/-- Claim C4: loadStoredTokens selects the persistent entry first and
falls back to the session-scoped one (`storedAuthEntry` is exactly the
`localStorage.getItem || sessionStorage.getItem` read; the last two
conjuncts state the two sides of that fallback), and fails closed: when
the selected blob fails to decrypt or its stored timestamp is 24 hours
old or older, the call returns false with the state untouched — no
tokens installed — rather than propagating an error (the thrown
decryption error is the `none` case of `dec`, caught by the code). -/
theorem c4_load_fails_closed (dec : String → Option String)
    (parse : String → Option StoredBundle) (now : Nat) (s : AuthState)
    (b : String) (v : StoreVal) (o2 : Option StoreVal)
    (hsel : storedAuthEntry s = some (.blob b))
    (hbad : dec b = none ∨
      ∃ plain tk, dec b = some plain ∧ parse plain = some tk ∧
        86400000 ≤ now - tk.timestamp)
    (hv : jsTruthy v = true) :
    loadStoredTokens dec parse now s = (false, s) ∧
    jsOrVal (some v) o2 = some v ∧
    jsOrVal none o2 = o2 := by
  refine ⟨?_, by simp [jsOrVal, hv], rfl⟩
  rcases hbad with hd | ⟨plain, tk, hd, hp, hts⟩
  · simp [loadStoredTokens, hsel, hd]
  · simp [loadStoredTokens, hsel, hd, hp, Nat.not_lt.mpr hts]

theorem c4_load_fails_closed_witness :
    loadStoredTokens (fun _ => none) (fun _ => none) 0 c4State =
      (false, c4State) ∧
    jsOrVal (some (.blob "x")) (some (.blob "y")) = some (.blob "x") ∧
    jsOrVal none (some (.blob "y")) = some (.blob "y") :=
  c4_load_fails_closed (fun _ => none) (fun _ => none) 0 c4State
    "ciphertext" (.blob "x") (some (.blob "y")) (by decide) (Or.inl rfl)
    (by decide)

/-- Claim C10: the public login operation never propagates an error to
its caller — the model is a total function, mirroring the catch-all that
turns every thrown error (lockout, input validation, backend failure or
rejection) into a result object with success false and a message — and
whenever the returned result has success = false, the in-memory session
fields currentUser, accessToken and refreshToken are exactly as they were
before the call. -/
theorem c10_login_failure_frame (enc : String → String)
    (ser : StoredBundle → String) (email pw : String) (rm : Bool)
    (o : LoginOutcome) (now : Nat) (s : AuthState)
    (h : (login enc ser email pw rm o now s).result.success = false) :
    (login enc ser email pw rm o now s).state.currentUser = s.currentUser ∧
    (login enc ser email pw rm o now s).state.accessToken = s.accessToken ∧
    (login enc ser email pw rm o now s).state.refreshToken = s.refreshToken := by
  cases hl : (isAccountLocked s.localStore email now).1 with
  | true => simp [login, hl]
  | false =>
      cases hv : validateLoginInput email pw with
      | some m => simp [login, hl, hv]
      | none =>
          cases o with
          | ok atk rtk user =>
              exfalso
              revert h
              simp [login, hl, hv]
          | fail m => simp [login, hl, hv]
          | err m => simp [login, hl, hv]

theorem c10_login_failure_frame_witness :
    (login encId serNull "u@example.com" "pw" false (.fail none) 0
      c1State).state.currentUser = c1State.currentUser ∧
    (login encId serNull "u@example.com" "pw" false (.fail none) 0
      c1State).state.accessToken = c1State.accessToken ∧
    (login encId serNull "u@example.com" "pw" false (.fail none) 0
      c1State).state.refreshToken = c1State.refreshToken :=
  c10_login_failure_frame encId serNull "u@example.com" "pw" false
    (.fail none) 0 c1State (by decide)

theorem jsTruthyStr_ne_none {o : Option String} (h : jsTruthyStr o = true) :
    o ≠ none := by
  cases o with
  | none => simp [jsTruthyStr] at h
  | some s => exact fun hc => Option.noConfusion hc

theorem tokensConsistent_step (enc : String → String)
    (ser : StoredBundle → String) (s : AuthState) (op : AuthOp)
    (h : tokensConsistent s) : tokensConsistent (stepOp enc ser s op) := by
  cases op with
  | loginOp email pw rm o now =>
      cases hl : (isAccountLocked s.localStore email now).1 with
      | true => simpa [stepOp, login, hl, tokensConsistent] using h
      | false =>
          cases hv : validateLoginInput email pw with
          | some m => simpa [stepOp, login, hl, hv, tokensConsistent] using h
          | none =>
              cases o with
              | ok atk rtk user =>
                  cases rm <;>
                    simp [stepOp, login, hl, hv, storeTokens,
                      clearLoginAttempts, tokensConsistent]
              | fail m => simpa [stepOp, login, hl, hv, tokensConsistent] using h
              | err m => simpa [stepOp, login, hl, hv, tokensConsistent] using h
  | refreshOp o now =>
      cases ht : jsTruthyStr s.refreshToken with
      | false =>
          simp [stepOp, refreshAccessToken, ht, logout, clearTimers,
            clearAuthData, tokensConsistent]
      | true =>
          cases o with
          | ok atk rtk =>
              cases hrt : jsTruthyStr rtk with
              | false =>
                  have hs := jsTruthyStr_ne_none ht
                  simp [stepOp, refreshAccessToken, refreshResume, ht, hrt,
                    storeTokens, tokensConsistent, hs]
              | true =>
                  have hr := jsTruthyStr_ne_none hrt
                  simp [stepOp, refreshAccessToken, refreshResume, ht, hrt,
                    storeTokens, tokensConsistent, hr]
          | fail =>
              simp [stepOp, refreshAccessToken, refreshResume, ht, logout,
                clearTimers, clearAuthData, tokensConsistent]
          | err m =>
              simp [stepOp, refreshAccessToken, refreshResume, ht, logout,
                clearTimers, clearAuthData, tokensConsistent]
  | logoutOp =>
      simp [stepOp, logout, clearTimers, clearAuthData, tokensConsistent]

/-- Claim C3: the pairing invariant holds after any sequence of login,
refreshAccessToken and logout operations, failing ones included — from
any state in which accessToken and refreshToken are both set or both
null, every reachable state again has them both set or both null. -/
theorem c3_token_pair_invariant (enc : String → String)
    (ser : StoredBundle → String) (ops : List AuthOp) (s : AuthState)
    (h : tokensConsistent s) : tokensConsistent (runOps enc ser ops s) := by
  induction ops generalizing s with
  | nil => exact h
  | cons op rest ih => exact ih _ (tokensConsistent_step enc ser s op h)

theorem c3_token_pair_invariant_witness :
    tokensConsistent (runOps encId serNull
      [.loginOp "u@example.com" "password1" true (.ok "a1" "r1" "user-1") 0,
       .refreshOp .fail 1, .logoutOp] c1State) :=
  c3_token_pair_invariant encId serNull
    [.loginOp "u@example.com" "password1" true (.ok "a1" "r1" "user-1") 0,
     .refreshOp .fail 1, .logoutOp] c1State Iff.rfl

theorem setItem_setItem_self (st : Store) (k : StoreKey) (v v' : StoreVal) :
    setItem (setItem st k v) k v' = setItem st k v' := by
  simp [setItem, removeItem, List.filter_cons, List.filter_filter]

theorem login_fail_step (enc : String → String) (ser : StoredBundle → String)
    (email pw : String) (rm : Bool) (m : Option String) (now : Nat)
    (s : AuthState)
    (hval : validateLoginInput email pw = none)
    (hlock : getItem s.localStore (.locked email) = none) :
    login enc ser email pw rm (.fail m) now s =
      ⟨{ s with localStore := handleLoginFailure s.localStore email now },
       ⟨false, none, jsOrStr m msgLoginFailed⟩, [], [.loginReq]⟩ := by
  have hl : isAccountLocked s.localStore email now = (false, s.localStore) := by
    simp only [isAccountLocked, hlock]
  simp [login, hl, hval]

theorem handleLoginFailure_fresh (st : Store) (email : String) (now : Nat)
    (h : getItem st (.attempts email) = none) :
    handleLoginFailure st email now =
      setItem st (.attempts email) (.attemptsRec 1 now) := by
  simp [handleLoginFailure, getLoginAttempts, h, maxLoginAttempts]

theorem handleLoginFailure_next (st : Store) (email : String)
    (now c ts : Nat)
    (h : getItem st (.attempts email) = some (.attemptsRec c ts))
    (hw : now - ts ≤ 3600000)
    (hc : c + 1 < maxLoginAttempts) :
    handleLoginFailure st email now =
      setItem st (.attempts email) (.attemptsRec (c + 1) now) := by
  simp [handleLoginFailure, getLoginAttempts, h, Nat.not_lt.mpr hw,
    Nat.not_le.mpr hc]

theorem handleLoginFailure_locks (st : Store) (email : String)
    (now c ts : Nat)
    (h : getItem st (.attempts email) = some (.attemptsRec c ts))
    (hw : now - ts ≤ 3600000)
    (hc : maxLoginAttempts ≤ c + 1) :
    handleLoginFailure st email now =
      setItem (setItem st (.attempts email) (.attemptsRec (c + 1) now))
        (.locked email) (.timeStr now) := by
  simp [handleLoginFailure, getLoginAttempts, h, Nat.not_lt.mpr hw, hc]

/-- Claim C1: starting from a state with no attempt or lock record for the
principal, five consecutive failed logins — each within the one-hour
window of its predecessor — leave the principal locked:
isAccountLocked reports true, and a sixth login call within the
lockout duration returns the account-locked failure result with the
state unchanged, no backend call issued (empty call list, so
sendLoginRequest is not invoked) and no event emitted, whatever the
backend double would have answered. -/
theorem c1_five_failures_lock_and_block (enc : String → String)
    (ser : StoredBundle → String) (email pw : String) (rm : Bool)
    (m1 m2 m3 m4 m5 : Option String) (o6 : LoginOutcome)
    (t1 t2 t3 t4 t5 t6 : Nat) (s : AuthState)
    (hval : validateLoginInput email pw = none)
    (hatt : getItem s.localStore (.attempts email) = none)
    (hlock : getItem s.localStore (.locked email) = none)
    (h21 : t2 - t1 ≤ 3600000) (h32 : t3 - t2 ≤ 3600000)
    (h43 : t4 - t3 ≤ 3600000) (h54 : t5 - t4 ≤ 3600000)
    (h65 : t6 - t5 < lockoutDuration) :
    (let s1 := (login enc ser email pw rm (.fail m1) t1 s).state
     let s2 := (login enc ser email pw rm (.fail m2) t2 s1).state
     let s3 := (login enc ser email pw rm (.fail m3) t3 s2).state
     let s4 := (login enc ser email pw rm (.fail m4) t4 s3).state
     let s5 := (login enc ser email pw rm (.fail m5) t5 s4).state
     (isAccountLocked s5.localStore email t6).1 = true ∧
     login enc ser email pw rm o6 t6 s5 =
       ⟨s5, ⟨false, none, msgLocked⟩, [], []⟩) := by
  have hne : (StoreKey.locked email) ≠ (StoreKey.attempts email) :=
    fun hc => StoreKey.noConfusion hc
  have hs1 : (login enc ser email pw rm (.fail m1) t1 s).state =
      { s with localStore :=
          setItem s.localStore (.attempts email) (.attemptsRec 1 t1) } := by
    rw [login_fail_step enc ser email pw rm m1 t1 s hval hlock,
        handleLoginFailure_fresh s.localStore email t1 hatt]
  have hlock1 : getItem (setItem s.localStore (.attempts email)
      (.attemptsRec 1 t1)) (.locked email) = none := by
    rw [getItem_setItem_ne _ _ _ _ hne]
    exact hlock
  have hs2 : (login enc ser email pw rm (.fail m2) t2
      { s with localStore :=
          setItem s.localStore (.attempts email) (.attemptsRec 1 t1) }).state =
      { s with localStore :=
          setItem s.localStore (.attempts email) (.attemptsRec 2 t2) } := by
    rw [login_fail_step enc ser email pw rm m2 t2 _ hval hlock1]
    dsimp only
    rw [handleLoginFailure_next _ email t2 1 t1 (getItem_setItem_self _ _ _)
        h21 (by decide), setItem_setItem_self]
  have hlock2 : getItem (setItem s.localStore (.attempts email)
      (.attemptsRec 2 t2)) (.locked email) = none := by
    rw [getItem_setItem_ne _ _ _ _ hne]
    exact hlock
  have hs3 : (login enc ser email pw rm (.fail m3) t3
      { s with localStore :=
          setItem s.localStore (.attempts email) (.attemptsRec 2 t2) }).state =
      { s with localStore :=
          setItem s.localStore (.attempts email) (.attemptsRec 3 t3) } := by
    rw [login_fail_step enc ser email pw rm m3 t3 _ hval hlock2]
    dsimp only
    rw [handleLoginFailure_next _ email t3 2 t2 (getItem_setItem_self _ _ _)
        h32 (by decide), setItem_setItem_self]
  have hlock3 : getItem (setItem s.localStore (.attempts email)
      (.attemptsRec 3 t3)) (.locked email) = none := by
    rw [getItem_setItem_ne _ _ _ _ hne]
    exact hlock
  have hs4 : (login enc ser email pw rm (.fail m4) t4
      { s with localStore :=
          setItem s.localStore (.attempts email) (.attemptsRec 3 t3) }).state =
      { s with localStore :=
          setItem s.localStore (.attempts email) (.attemptsRec 4 t4) } := by
    rw [login_fail_step enc ser email pw rm m4 t4 _ hval hlock3]
    dsimp only
    rw [handleLoginFailure_next _ email t4 3 t3 (getItem_setItem_self _ _ _)
        h43 (by decide), setItem_setItem_self]
  have hlock4 : getItem (setItem s.localStore (.attempts email)
      (.attemptsRec 4 t4)) (.locked email) = none := by
    rw [getItem_setItem_ne _ _ _ _ hne]
    exact hlock
  have hs5 : (login enc ser email pw rm (.fail m5) t5
      { s with localStore :=
          setItem s.localStore (.attempts email) (.attemptsRec 4 t4) }).state =
      { s with localStore := lockedStore s.localStore email 5 t5 } := by
    rw [login_fail_step enc ser email pw rm m5 t5 _ hval hlock4]
    dsimp only
    rw [handleLoginFailure_locks _ email t5 4 t4 (getItem_setItem_self _ _ _)
        h54 (by decide), setItem_setItem_self]
    rfl
  have hlocked : isAccountLocked (lockedStore s.localStore email 5 t5)
      email t6 = (true, lockedStore s.localStore email 5 t5) := by
    simp only [lockedStore, isAccountLocked, getItem_setItem_self]
    rw [if_pos h65]
  dsimp only
  rw [hs1, hs2, hs3, hs4, hs5]
  constructor
  · dsimp only
    rw [hlocked]
  · simp [login, hlocked]

theorem c1_five_failures_lock_and_block_witness :
    (let s1 := (login encId serNull "user@example.com" "password1" false
        (.fail none) 10 c1State).state
     let s2 := (login encId serNull "user@example.com" "password1" false
        (.fail none) 20 s1).state
     let s3 := (login encId serNull "user@example.com" "password1" false
        (.fail none) 30 s2).state
     let s4 := (login encId serNull "user@example.com" "password1" false
        (.fail none) 40 s3).state
     let s5 := (login encId serNull "user@example.com" "password1" false
        (.fail none) 50 s4).state
     (isAccountLocked s5.localStore "user@example.com" 60).1 = true ∧
     login encId serNull "user@example.com" "password1" false
        (.ok "a1" "r1" "user-1") 60 s5 =
       ⟨s5, ⟨false, none, msgLocked⟩, [], []⟩) :=
  c1_five_failures_lock_and_block encId serNull "user@example.com"
    "password1" false none none none none none (.ok "a1" "r1" "user-1")
    10 20 30 40 50 60 c1State (by decide) (by decide) (by decide)
    (by decide) (by decide) (by decide) (by decide) (by decide)

theorem b64Index_b64Char : ∀ n, n < 64 → b64Index (b64Char n) = some n := by
  decide

theorem b64Char_ne_pad : ∀ n, n < 64 → b64Char n ≠ '=' := by decide

theorem atob_btoa : ∀ l : List Nat, (∀ x ∈ l, x < 256) →
    atob (btoa l) = some l
  | [], _ => rfl
  | [a], h => by
      have ha : a < 256 := h a (by simp)
      have h1 : a / 4 < 64 := by omega
      have h2 : a % 4 * 16 < 64 := by omega
      simp only [btoa, atob]
      rw [b64Index_b64Char _ h1, b64Index_b64Char _ h2]
      dsimp only
      rw [if_pos (by simp)]
      have e1 : a / 4 * 4 + a % 4 * 16 / 16 = a := by omega
      rw [e1]
  | [a, b], h => by
      have ha : a < 256 := h a (by simp)
      have hb : b < 256 := h b (by simp)
      have h1 : a / 4 < 64 := by omega
      have h2 : a % 4 * 16 + b / 16 < 64 := by omega
      have h3 : b % 16 * 4 < 64 := by omega
      simp only [btoa, atob]
      rw [b64Index_b64Char _ h1, b64Index_b64Char _ h2]
      dsimp only
      rw [if_neg (fun hc => b64Char_ne_pad _ h3 hc.1),
          if_pos (by simp), b64Index_b64Char _ h3]
      dsimp only
      have e1 : a / 4 * 4 + (a % 4 * 16 + b / 16) / 16 = a := by omega
      have e2 : (a % 4 * 16 + b / 16) % 16 * 16 + b % 16 * 4 / 4 = b := by
        omega
      rw [e1, e2]
  | a :: b :: c :: rest, h => by
      have ha : a < 256 := h a (by simp)
      have hb : b < 256 := h b (by simp)
      have hc : c < 256 := h c (by simp)
      have ih := atob_btoa rest (fun x hx => h x (by simp [hx]))
      have h1 : a / 4 < 64 := by omega
      have h2 : a % 4 * 16 + b / 16 < 64 := by omega
      have h3 : b % 16 * 4 + c / 64 < 64 := by omega
      have h4 : c % 64 < 64 := by omega
      simp only [btoa, atob]
      rw [b64Index_b64Char _ h1, b64Index_b64Char _ h2]
      dsimp only
      rw [if_neg (fun hcn => b64Char_ne_pad _ h3 hcn.1),
          if_neg (fun hcn => b64Char_ne_pad _ h4 hcn.1),
          b64Index_b64Char _ h3, b64Index_b64Char _ h4, ih]
      dsimp only
      have e1 : a / 4 * 4 + (a % 4 * 16 + b / 16) / 16 = a := by omega
      have e2 : (a % 4 * 16 + b / 16) % 16 * 16 + (b % 16 * 4 + c / 64) / 4 = b := by
        omega
      have e3 : (b % 16 * 4 + c / 64) % 4 * 64 + c % 64 = c := by omega
      rw [e1, e2, e3]

/-- Claim C5 (code bug): the round trip the claim states is the evident
intent of encryptData/decryptData, but the constructor stores the
un-awaited Promise of `crypto.subtle.generateKey` in
`this.encryptionKey`, so both subtle calls reject with a TypeError for
every input: under the key value the program actually holds
(`generateEncryptionKey`), encryptData throws for every plaintext — the
empty one included — and decryptData throws for every ciphertext, so
`decryptData(encryptData(x))` never returns `x` for any `x`.  The last
conjunct isolates the slip to the key: with the awaited CryptoKey the
identical wrapper code round-trips exactly as the claim states (base64
round trip, 12-byte IV prepend/slice, primitive round trip). -/
theorem c5_roundtrip_defeated_by_unawaited_key {K : Type}
    (cipher : K → List Nat → List Nat → List Nat)
    (decipher : K → List Nat → List Nat → Option (List Nat))
    (k : K) (iv data : List Nat) (ct : List Char)
    (hlen : iv.length = 12)
    (hiv : ∀ x ∈ iv, x < 256)
    (hct : ∀ x ∈ cipher k iv data, x < 256)
    (hprim : decipher k iv (cipher k iv data) = some data) :
    encryptData cipher (generateEncryptionKey K) iv data = none ∧
    decryptData decipher (generateEncryptionKey K) ct = none ∧
    (encryptData cipher (.cryptoKey k) iv data).bind
      (decryptData decipher (.cryptoKey k)) = some data := by
  refine ⟨rfl, ?_, ?_⟩
  · cases h : atob ct <;>
      simp [decryptData, h, subtleDecrypt, generateEncryptionKey]
  · have hbytes : ∀ x ∈ iv ++ cipher k iv data, x < 256 := by
      intro x hx
      rcases List.mem_append.mp hx with hx | hx
      · exact hiv x hx
      · exact hct x hx
    have ht : (iv ++ cipher k iv data).take 12 = iv := by
      rw [← hlen]
      exact List.take_left iv _
    have hd : (iv ++ cipher k iv data).drop 12 = cipher k iv data := by
      rw [← hlen]
      exact List.drop_left iv _
    show decryptData decipher (.cryptoKey k) (btoa (iv ++ cipher k iv data)) =
      some data
    unfold decryptData
    rw [atob_btoa (iv ++ cipher k iv data) hbytes]
    dsimp only
    rw [ht, hd]
    exact hprim

theorem c5_roundtrip_defeated_by_unawaited_key_witness :
    encryptData (fun _ _ d => d) (generateEncryptionKey Nat)
      [0, 1, 2, 3, 4, 5, 6, 7, 8, 9, 10, 11] [104, 105] = none ∧
    decryptData (fun _ _ ct => some ct) (generateEncryptionKey Nat)
      ['A'] = none ∧
    (encryptData (fun _ _ d => d) (.cryptoKey 0)
      [0, 1, 2, 3, 4, 5, 6, 7, 8, 9, 10, 11] [104, 105]).bind
      (decryptData (fun _ _ ct => some ct) (.cryptoKey 0)) =
      some [104, 105] :=
  c5_roundtrip_defeated_by_unawaited_key (fun _ _ d => d)
    (fun _ _ ct => some ct) 0 [0, 1, 2, 3, 4, 5, 6, 7, 8, 9, 10, 11]
    [104, 105] ['A'] (by decide) (by decide) (by decide) rfl

end MydataAuth
